import Mathlib

/-!
Verification of the Sundarbans mangrove / urban-development pipeline
(`Sunderbans_mangrove_urban_map.ipynb`).

The script is a linear geospatial pipeline: download two rasters, clip them
to a bounding box, vectorize binary masks into polygon layers, reproject,
buffer the mangrove layer, intersect it with the built-up layer, and print
area statistics.

Shallow embedding choices, stated once here and in the doc comments below:
* Geometries are modelled as axis-aligned rational boxes.  Polygon
  intersection, containment, area and outward expansion are exact on boxes;
  the circular arcs of a true shapely buffer are modelled as rectangular
  dilation (Minkowski sum with a square instead of a disc).  The claims
  verified here concern layer structure, emptiness, positivity and
  comparison of areas, which this model captures.
* Coordinate reprojection (`to_crs`) changes the CRS label carried by a
  layer; the coordinate transformation itself is modelled as the identity
  on coordinates, since no claim depends on projection mathematics.
* The file system is a partial map from paths to byte strings; the network
  is a function from URLs to responses (or connection errors).
-/

/-- Axis-aligned box with rational coordinates.  A box is considered empty
(area zero) when `x1 ≤ x0` or `y1 ≤ y0`. -/
structure Box where
  x0 : ℚ
  y0 : ℚ
  x1 : ℚ
  y1 : ℚ
deriving DecidableEq, Repr

/-- Intersection of two boxes (possibly degenerate). -/
def Box.inter (a b : Box) : Box :=
  ⟨max a.x0 b.x0, max a.y0 b.y0, min a.x1 b.x1, min a.y1 b.y1⟩

/-- A box is nonempty when it has positive extent in both axes. -/
def Box.nonempty (a : Box) : Bool :=
  decide (a.x0 < a.x1) && decide (a.y0 < a.y1)

/-- Area of a box; zero for degenerate boxes. -/
def Box.area (a : Box) : ℚ :=
  if a.x0 < a.x1 ∧ a.y0 < a.y1 then (a.x1 - a.x0) * (a.y1 - a.y0) else 0

/-- `a` is contained in `b` (as subsets of the plane, for nonempty `a`). -/
def Box.sub (a b : Box) : Prop :=
  b.x0 ≤ a.x0 ∧ b.y0 ≤ a.y0 ∧ a.x1 ≤ b.x1 ∧ a.y1 ≤ b.y1

instance (a b : Box) : Decidable (a.sub b) := by
  unfold Box.sub; infer_instance

/-- Outward expansion of a box by distance `d` on every side: the model of
`GeoSeries.buffer(d)` (rectangular dilation in place of the disc). -/
def Box.expand (d : ℚ) (a : Box) : Box :=
  ⟨a.x0 - d, a.y0 - d, a.x1 + d, a.y1 + d⟩

/-- Smallest box containing both arguments. -/
def Box.join (a b : Box) : Box :=
  ⟨min a.x0 b.x0, min a.y0 b.y0, max a.x1 b.x1, max a.y1 b.y1⟩

/-- A vector layer: polygon geometries plus the CRS attribute, the model of
a `geopandas.GeoDataFrame` as used by the script (geometry column only). -/
structure GeoDataFrame where
  geometry : List Box
  crs : ℕ
deriving DecidableEq, Repr

/-- Sum of the areas of a layer's geometries: `gdf.area.sum()`. -/
def areaSum (gs : List Box) : ℚ :=
  gs.foldr (fun g acc => g.area + acc) 0

/-- `gdf.to_crs(c)`: the layer reprojected to CRS `c`.  The coordinate
transformation is modelled as the identity on coordinates (see the header);
the CRS attribute becomes `c`. -/
def to_crs (c : ℕ) (g : GeoDataFrame) : GeoDataFrame :=
  { geometry := g.geometry, crs := c }

/-- `gpd.overlay(a, b, how='intersection')` on the geometry lists:
the pairwise intersections of the rows of `a` with the rows of `b`,
keeping those with positive area (geopandas drops non-intersecting pairs
and, with `keep_geom_type`, lower-dimensional touches). -/
def overlayInter (a b : List Box) : List Box :=
  a.flatMap fun g =>
    b.filterMap fun h =>
      if (g.inter h).nonempty then some (g.inter h) else none

/-- `gpd.overlay(a, b, how='intersection')` on layers: the output frame
carries the CRS of the first input. -/
def overlay (a b : GeoDataFrame) : GeoDataFrame :=
  { geometry := overlayInter a.geometry b.geometry, crs := a.crs }

/-! ## Fetcher (script Step 3)

`download_file(url, dest)` and the inline GHSL zip fetch.  The file system
is a map from paths to byte strings; the network is a function from URLs
to either a connection-level error (which `requests.get` raises) or an
`HttpResponse` — note that `requests.get` does NOT raise on an HTTP error
status such as 404; it returns the response and `.content` is the error
body. -/

abbrev Bytes := List ℕ

abbrev FS := String → Option Bytes

/-- The file-system effect of a successful write: path `p` now holds
exactly `b`.  The fallible `open(dest,'wb')`/`f.write` pair itself is
modelled by `writeFile` below. -/
def FS.write (fs : FS) (p : String) (b : Bytes) : FS :=
  fun q => if q = p then some b else fs q

/-- Outcome of the `open(dest,'wb')`/`f.write(content)` pair against the
disk.  `open` may itself raise (permissions, missing directory), leaving
the file system unchanged; after a successful `open` — which creates or
truncates the file — `f.write` may raise having written only a prefix of
the content, leaving a partially written file behind. -/
inductive WriteOutcome where
  | ok : WriteOutcome
  | failOpen (e : String) : WriteOutcome
  | failWrite (e : String) (written : ℕ) : WriteOutcome
deriving DecidableEq, Repr

/-- Disk behaviour: the outcome of writing given bytes to a given path. -/
abbrev Disk := String → Bytes → WriteOutcome

/-- `open(p,'wb')` followed by `f.write(b)`: on success the file holds
`b`; if `open` raises, the file system is unchanged; if `f.write` raises,
the file holds the prefix written before the error (the `open` already
truncated it).  An error carries the file system at the moment of the
abort. -/
def writeFile (disk : Disk) (fs : FS) (p : String) (b : Bytes) :
    Except (String × FS) FS :=
  match disk p b with
  | WriteOutcome.ok => Except.ok (fs.write p b)
  | WriteOutcome.failOpen e => Except.error (e, fs)
  | WriteOutcome.failWrite e n => Except.error (e, fs.write p (b.take n))

/-- Body of an HTTP response together with its status code. -/
structure HttpResponse where
  status : ℕ
  content : Bytes
deriving DecidableEq, Repr

/-- What `requests.get` yields: a connection-level error (raised) or a
response, whatever its status code. -/
abbrev NetAnswer := Except String HttpResponse

/-- Effect of a fetch step: the resulting file system and the list of URLs
for which a network request was issued. -/
structure FetchEffect where
  fs : FS
  requested : List String

/-- `download_file(url, dest)` from the script: skip everything when `dest`
exists; otherwise `requests.get` (a raised connection error propagates,
carrying the file system at the moment of the abort) and then
`open(dest,'wb')`/`f.write(r.content)` (a raised disk error propagates
likewise, through `writeFile`). -/
def download_file (net : String → NetAnswer) (disk : Disk)
    (url dest : String) (fs : FS) : Except (String × FS) FetchEffect :=
  if (fs dest).isSome then Except.ok ⟨fs, []⟩
  else
    match net url with
    | Except.error e => Except.error (e, fs)
    | Except.ok r =>
      match writeFile disk fs dest r.content with
      | Except.error es => Except.error es
      | Except.ok fs2 => Except.ok ⟨fs2, [url]⟩

def figshare_url : String := "https://figshare.com/ndownloader/files/41881913"

def ghsl_url : String :=
  "https://jeodpp.jrc.ec.europa.eu/ftp/jrc-opendata/GHSL/GHS_BUILT_LDS2020/GHS_BUILT_LDS2020_GLOBE_R2023A/GHS_BUILT_LDS2020_GLOBE_R2023A_3857_30ss/V1-0/GHS_BUILT_LDS2020_GLOBE_R2023A_3857_30ss_V1_0.zip"

def mangrove_tif : String := "data/AnnualMangrove_2022.tif"

def ghsl_tif : String := "data/GHS_BUILT_LDS2020_GLOBE_R2023A_3857_30ss_V1_0.tif"

/-- `ZipFile.extractall(data_dir)`: write the archive members in order; a
disk error while writing a member propagates, leaving the members already
extracted (and any partial member) behind. -/
def extractAll (disk : Disk) (members : List (String × Bytes)) (fs : FS) :
    Except (String × FS) FS :=
  match members with
  | [] => Except.ok fs
  | m :: rest =>
    match writeFile disk fs m.1 m.2 with
    | Except.error es => Except.error es
    | Except.ok fs2 => extractAll disk rest fs2

/-- The inline GHSL fetch: `if not os.path.exists(ghsl_tif): requests.get;
ZipFile(BytesIO(r.content)).extractall(data_dir)`.  `unzip` models reading
the archive member list from the downloaded bytes. -/
def fetch_ghsl (net : String → NetAnswer) (disk : Disk)
    (unzip : Bytes → List (String × Bytes)) (fs : FS) :
    Except (String × FS) FetchEffect :=
  if (fs ghsl_tif).isSome then Except.ok ⟨fs, []⟩
  else
    match net ghsl_url with
    | Except.error e => Except.error (e, fs)
    | Except.ok r =>
      match extractAll disk (unzip r.content) fs with
      | Except.error es => Except.error es
      | Except.ok fs2 => Except.ok ⟨fs2, [ghsl_url]⟩

/-! ## Vectorizer (script Step 6): `shapes_to_gdf` -/

/-- A raw shape from the `features.shapes` generator, as consumed by
`shapely.geometry.shape(s)`: construction either succeeds with a polygon
or raises. -/
abbrev RawShape := Except String Box

/-- The loop body of `shapes_to_gdf`: keep `shape(s)` for pairs with
`v == 1`, `continue` silently when construction raises. -/
def collectGeoms : List (RawShape × ℚ) → List Box
  | [] => []
  | (s, v) :: rest =>
    if v = 1 then
      match s with
      | Except.ok g => g :: collectGeoms rest
      | Except.error _ => collectGeoms rest
    else collectGeoms rest

/-- `shapes_to_gdf(shapes_gen, crs)` from the script. -/
def shapes_to_gdf (gen : List (RawShape × ℚ)) (crs : ℕ) : GeoDataFrame :=
  { geometry := collectGeoms gen, crs := crs }

/-! ## Raster layer and the Clipper (script Step 5)

A raster is a north-up georeferenced grid: `val i j` is the cell value at
row `i` (counted from the north edge `y0`) and column `j` (from the west
edge `x0`); `none` models a nodata cell (masked by `masked=True`).
`clip_box` models `rio.clip_box(minx, miny, maxx, maxy)`: the window is
computed from the bounds and snapped OUTWARD to whole cells (rasterio
floors the window start and ceils its stop), then clamped to the grid. -/

structure Raster where
  nrows : ℕ
  ncols : ℕ
  val : ℕ → ℕ → Option ℚ
  x0 : ℚ
  y0 : ℚ
  px : ℚ
  py : ℚ
  crs : ℕ

/-- Floor of a rational as an integer (computable). -/
def ratFloor (q : ℚ) : ℤ := Int.fdiv q.num q.den

/-- Ceiling of a rational as an integer (computable). -/
def ratCeil (q : ℚ) : ℤ := -ratFloor (-q)

/-- Spatial extent of a raster. -/
def Raster.extent (r : Raster) : Box :=
  ⟨r.x0, r.y0 - r.nrows * r.py, r.x0 + r.ncols * r.px, r.y0⟩

/-- Footprint of cell `(i, j)`. -/
def Raster.cellBox (r : Raster) (i j : ℕ) : Box :=
  ⟨r.x0 + j * r.px, r.y0 - (i + 1) * r.py, r.x0 + (j + 1) * r.px, r.y0 - i * r.py⟩

/-- First column of the clip window (floor of the fractional column of
`minx`, clamped to the grid). -/
def clipJ0 (r : Raster) (minx : ℚ) : ℕ :=
  min r.ncols (ratFloor ((minx - r.x0) / r.px)).toNat

/-- One past the last column of the clip window (ceiling, clamped). -/
def clipJ1 (r : Raster) (minx maxx : ℚ) : ℕ :=
  min r.ncols (max (clipJ0 r minx) (ratCeil ((maxx - r.x0) / r.px)).toNat)

/-- First row of the clip window (rows count from the north edge). -/
def clipI0 (r : Raster) (maxy : ℚ) : ℕ :=
  min r.nrows (ratFloor ((r.y0 - maxy) / r.py)).toNat

/-- One past the last row of the clip window. -/
def clipI1 (r : Raster) (miny maxy : ℚ) : ℕ :=
  min r.nrows (max (clipI0 r maxy) (ratCeil ((r.y0 - miny) / r.py)).toNat)

/-- `rio.clip_box(minx, miny, maxx, maxy)`: crop to the pixel-aligned
window covering the box, clamped to the grid; no reprojection. -/
def clip_box (r : Raster) (minx miny maxx maxy : ℚ) : Raster :=
  { nrows := clipI1 r miny maxy - clipI0 r maxy,
    ncols := clipJ1 r minx maxx - clipJ0 r minx,
    val := fun i j =>
      if i < clipI1 r miny maxy - clipI0 r maxy ∧ j < clipJ1 r minx maxx - clipJ0 r minx
      then r.val (i + clipI0 r maxy) (j + clipJ0 r minx) else none,
    x0 := r.x0 + clipJ0 r minx * r.px,
    y0 := r.y0 - clipI0 r maxy * r.py,
    px := r.px, py := r.py, crs := r.crs }

/-! ## Vectorizer (script Step 6): masks and `features.shapes`

`features.shapes(mask.astype(uint8), transform=...)` yields one
`(geojson, value)` pair per 4-connected region of constant mask value.
Regions are computed by min-label propagation over 4-neighbours of equal
mask value, iterated `nrows*ncols` times (enough to stabilise).  A region's
polygon is modelled by the bounding box of its cells (exact for the
single-cell and rectangular regions exercised here); its value is the
mask value (1 or 0), as in the uint8 mask the script passes. -/

abbrev Cell := ℕ × ℕ

/-- `(mangrove.squeeze() == 1)`: nodata compares unequal. -/
def maskEq1 (r : Raster) : Cell → Bool :=
  fun c => decide (r.val c.1 c.2 = some 1)

/-- `(builtup.squeeze() > 0)`: nodata compares false. -/
def maskGt0 (r : Raster) : Cell → Bool :=
  fun c =>
    match r.val c.1 c.2 with
    | some v => decide (0 < v)
    | none => false

/-- All cell indices of the grid, row-major. -/
def allCells (r : Raster) : List Cell :=
  (List.range r.nrows).flatMap fun i => (List.range r.ncols).map fun j => (i, j)

/-- Label of a cell in a label grid. -/
def labAt (L : List (List ℕ)) (c : Cell) : ℕ :=
  (L.getD c.1 []).getD c.2 0

/-- Initial labels: each cell its own row-major index. -/
def initLabels (r : Raster) : List (List ℕ) :=
  (List.range r.nrows).map fun i => (List.range r.ncols).map fun j => i * r.ncols + j

/-- In-bounds 4-neighbours of `(i, j)` carrying the same mask value. -/
def sameValueNbrs (r : Raster) (mask : Cell → Bool) (i j : ℕ) : List Cell :=
  (((if 0 < i then [((i - 1 : ℕ), j)] else []) ++
    (if 0 < j then [(i, (j - 1 : ℕ))] else []) ++
    [(i + 1, j), (i, j + 1)]).filter
    fun c => decide (c.1 < r.nrows) && decide (c.2 < r.ncols) &&
             (mask c == mask (i, j)))

/-- One round of min-label propagation. -/
def stepLabels (r : Raster) (mask : Cell → Bool) (L : List (List ℕ)) :
    List (List ℕ) :=
  (List.range r.nrows).map fun i => (List.range r.ncols).map fun j =>
    ((sameValueNbrs r mask i j).map (labAt L)).foldr min (labAt L (i, j))

/-- Iterate a function `n` times. -/
def iterN (f : α → α) : ℕ → α → α
  | 0, x => x
  | n + 1, x => iterN f n (f x)

/-- Stable region labels of the mask. -/
def finalLabels (r : Raster) (mask : Cell → Bool) : List (List ℕ) :=
  iterN (stepLabels r mask) (r.nrows * r.ncols) (initLabels r)

/-- Bounding box of a group of cells (degenerate for the empty group). -/
def bboxOfCells (r : Raster) : List Cell → Box
  | [] => ⟨0, 0, 0, 0⟩
  | c :: rest => rest.foldl (fun b c2 => b.join (r.cellBox c2.1 c2.2)) (r.cellBox c.1 c.2)

/-- `features.shapes(mask.astype(uint8), transform=...)`: one
`(polygon, value)` pair per region of constant mask value. -/
def features_shapes (r : Raster) (mask : Cell → Bool) : List (RawShape × ℚ) :=
  let L := finalLabels r mask
  let cells := allCells r
  let keys := (cells.map fun c => (labAt L c, mask c)).dedup
  keys.map fun k =>
    (Except.ok (bboxOfCells r (cells.filter fun c =>
        decide (labAt L c = k.1) && (mask c == k.2))),
     if k.2 then 1 else 0)

/-! ## Geometry processor (script Step 7) and statistics (Step 9) -/

/-- The two buffer lines of the script: `mangrove_buffer = gdf_mangrove.copy();
mangrove_buffer['geometry'] = mangrove_buffer.buffer(0.05)` seen as a pure
layer transformation: every geometry expanded by `d`, CRS kept. -/
def bufferLayer (d : ℚ) (g : GeoDataFrame) : GeoDataFrame :=
  { geometry := g.geometry.map (Box.expand d), crs := g.crs }

/-- Two-digit zero-padded fraction part. -/
def pad2 (n : ℕ) : String := if n < 10 then "0" ++ toString n else toString n

/-- `f"{v:.2f}"`: fixed-point rendering with two decimals.  Rounding is
modelled as round-half-up on the exact rational (Python rounds the nearest
double half-to-even; no claim depends on tie behaviour). -/
def format2 (q : ℚ) : String :=
  let n : ℤ := ratFloor (q * 100 + 1 / 2)
  toString (Int.fdiv n 100) ++ "." ++ pad2 (Int.emod n 100).toNat

/-- The final `print` loop: one line per statistics entry,
`f"  {k}: {v:.2f}"`. -/
def statLines (stats : List (String × ℚ)) : List String :=
  stats.map fun kv => "  " ++ kv.1 ++ ": " ++ format2 kv.2

/-- Everything the script computes downstream of the two rasters. -/
structure PipelineResult where
  gdf_mangrove : GeoDataFrame
  gdf_builtup : GeoDataFrame
  mangrove_buffer : GeoDataFrame
  overlap : GeoDataFrame
  stats : List (String × ℚ)
deriving Repr

/-- Steps 4–9 of the script as one pure function of the two opened rasters:
clip both to the Sundarbans box `(87.8, 21.5, 90.0, 22.8)`, vectorize the
`== 1` and `> 0` masks, reproject to EPSG:4326, buffer the mangrove layer
by `0.05`, overlay built-up with the buffer, and build the statistics table
over EPSG:6933 with the m²→km² division by 1e6. -/
def run_pipeline (mangroveRaw builtupRaw : Raster) : PipelineResult :=
  let mangrove := clip_box mangroveRaw 87.8 21.5 90.0 22.8
  let builtup := clip_box builtupRaw 87.8 21.5 90.0 22.8
  let mangrove_shapes := features_shapes mangrove (maskEq1 mangrove)
  let builtup_shapes := features_shapes builtup (maskGt0 builtup)
  let gdf_mangrove := to_crs 4326 (shapes_to_gdf mangrove_shapes mangrove.crs)
  let gdf_builtup := to_crs 4326 (shapes_to_gdf builtup_shapes builtup.crs)
  let mangrove_buffer := bufferLayer 0.05 gdf_mangrove
  let overlap := overlay gdf_builtup mangrove_buffer
  let gdf_mangrove_eq := to_crs 6933 gdf_mangrove
  let gdf_builtup_eq := to_crs 6933 gdf_builtup
  let overlap_eq := to_crs 6933 overlap
  { gdf_mangrove := gdf_mangrove,
    gdf_builtup := gdf_builtup,
    mangrove_buffer := mangrove_buffer,
    overlap := overlap,
    stats :=
      [("Mangrove area (km²)", areaSum gdf_mangrove_eq.geometry / 1000000),
       ("Built-up area (km²)", areaSum gdf_builtup_eq.geometry / 1000000),
       ("Built-up within 5 km (km²)", areaSum overlap_eq.geometry / 1000000)] }

/-! ## Reference semantics of the buffer assignment (script Step 7)

`mangrove_buffer = gdf_mangrove.copy()` followed by
`mangrove_buffer['geometry'] = mangrove_buffer.buffer(0.05)` is a heap
program: the copy allocates a fresh object, the column assignment mutates
in place the object bound to `mangrove_buffer`.  The heap model makes the
aliasing explicit, so that the frame effect on `gdf_mangrove` is a fact
about the mutation and not an artefact of a functional translation. -/

structure BufferState where
  heap : ℕ → GeoDataFrame
  nextId : ℕ
  gdf_mangrove : ℕ
  mangrove_buffer : ℕ

/-- `mangrove_buffer = gdf_mangrove.copy()`: allocate a fresh object with
the same contents and bind `mangrove_buffer` to it. -/
def copyStep (s : BufferState) : BufferState :=
  { heap := fun r => if r = s.nextId then s.heap s.gdf_mangrove else s.heap r,
    nextId := s.nextId + 1,
    gdf_mangrove := s.gdf_mangrove,
    mangrove_buffer := s.nextId }

/-- `mangrove_buffer['geometry'] = mangrove_buffer.buffer(0.05)`: in-place
update of the object bound to `mangrove_buffer`. -/
def assignStep (s : BufferState) : BufferState :=
  { heap := fun r =>
      if r = s.mangrove_buffer then bufferLayer 0.05 (s.heap s.mangrove_buffer)
      else s.heap r,
    nextId := s.nextId,
    gdf_mangrove := s.gdf_mangrove,
    mangrove_buffer := s.mangrove_buffer }

/-- The two buffer lines in sequence. -/
def bufferProgram (s : BufferState) : BufferState := assignStep (copyStep s)

/-! ## Concrete inputs used by witnesses and counterexamples -/

/-- Empty file system: first run, nothing cached. -/
def emptyFS : FS := fun _ => none

/-- File system on which both destination files are already present. -/
def cachedFS : FS :=
  fun p => if p = mangrove_tif then some [1] else if p = ghsl_tif then some [2] else none

/-- A healthy network: every URL answers 200 with body `[7]`. -/
def netOk : String → NetAnswer := fun _ => Except.ok ⟨200, [7]⟩

/-- A network that answers every URL with HTTP 404 and an error page. -/
def net404 : String → NetAnswer := fun _ => Except.ok ⟨404, [110, 111]⟩

/-- A network on which every request raises a connection error. -/
def netDown : String → NetAnswer := fun _ => Except.error "ConnectionError"

/-- A healthy network with a three-byte body, so that a partial write is
visibly shorter than the full content. -/
def netBody3 : String → NetAnswer := fun _ => Except.ok ⟨200, [7, 8, 9]⟩

/-- A healthy disk: every write succeeds. -/
def diskOk : Disk := fun _ _ => WriteOutcome.ok

/-- A full disk: `open` succeeds (truncating the destination), but
`f.write` raises after writing one byte. -/
def diskFull : Disk := fun _ _ => WriteOutcome.failWrite "ENOSPC" 1

/-- A trivial unzipper. -/
def unzipNone : Bytes → List (String × Bytes) := fun _ => []

/-- 1×1 mangrove raster inside the Sundarbans box: one cell of class 1. -/
def mangroveOne : Raster :=
  { nrows := 1, ncols := 1, val := fun _ _ => some 1,
    x0 := 88, y0 := 22, px := 1/100, py := 1/100, crs := 4326 }

/-- 1×1 built-up raster co-located with `mangroveOne`: one cell `> 0`. -/
def builtupOne : Raster :=
  { nrows := 1, ncols := 1, val := fun _ _ => some 5,
    x0 := 88, y0 := 22, px := 1/100, py := 1/100, crs := 3857 }

/-- 1×3 mangrove raster with two separate class-1 cells (columns 0 and 2):
two distinct regions whose 0.05-degree buffers both cover the middle
column. -/
def mangroveTwo : Raster :=
  { nrows := 1, ncols := 3, val := fun _ j => if j = 1 then some 0 else some 1,
    x0 := 88, y0 := 22, px := 1/100, py := 1/100, crs := 4326 }

/-- 1×3 built-up raster, co-located with `mangroveTwo`, whose single
positive cell (column 1) lies inside both buffers. -/
def builtupMid : Raster :=
  { nrows := 1, ncols := 3, val := fun _ j => if j = 1 then some 5 else some 0,
    x0 := 88, y0 := 22, px := 1/100, py := 1/100, crs := 3857 }

/-- 2×2 unit-pixel raster used against a half-pixel-aligned clip window. -/
def rClipEx : Raster :=
  { nrows := 2, ncols := 2, val := fun _ _ => some 1,
    x0 := 0, y0 := 2, px := 1, py := 1, crs := 4326 }

/-- A layer whose two geometries overlap each other. -/
def overlappingLayer : GeoDataFrame :=
  { geometry := [⟨0, 0, 2, 2⟩, ⟨1, 1, 3, 3⟩], crs := 4326 }

/-- A concrete heap state for the buffer-assignment program: variable
`gdf_mangrove` refers to object 0, the next free object id is 1. -/
def bufferState0 : BufferState :=
  { heap := fun r => if r = 0 then ⟨[⟨0, 0, 1, 1⟩], 32645⟩ else ⟨[], 0⟩,
    nextId := 1, gdf_mangrove := 0, mangrove_buffer := 0 }

/-! # Theorems -/

/-! ## Basic geometry lemmas -/

theorem Box.inter_self (a : Box) : a.inter a = a := by
  simp [Box.inter]

theorem Box.inter_comm (a b : Box) : a.inter b = b.inter a := by
  simp [Box.inter, max_comm, min_comm]

theorem Box.area_nonneg (a : Box) : 0 ≤ a.area := by
  unfold Box.area
  split
  · rename_i h
    have hx : (0:ℚ) ≤ a.x1 - a.x0 := by linarith [h.1]
    have hy : (0:ℚ) ≤ a.y1 - a.y0 := by linarith [h.2]
    exact mul_nonneg hx hy
  · exact le_refl 0

theorem Box.nonempty_iff_area_pos (a : Box) :
    a.nonempty = true ↔ 0 < a.area := by
  unfold Box.nonempty Box.area
  constructor
  · intro h
    have hx : a.x0 < a.x1 ∧ a.y0 < a.y1 := by
      simpa [Bool.and_eq_true, decide_eq_true_eq] using h
    rw [if_pos hx]
    have h1 : (0:ℚ) < a.x1 - a.x0 := by linarith [hx.1]
    have h2 : (0:ℚ) < a.y1 - a.y0 := by linarith [hx.2]
    exact mul_pos h1 h2
  · intro h
    by_cases hx : a.x0 < a.x1 ∧ a.y0 < a.y1
    · simp [Bool.and_eq_true, decide_eq_true_eq, hx.1, hx.2]
    · rw [if_neg hx] at h
      exact absurd h (lt_irrefl 0)

theorem Box.nonempty_eq_false_of_area_eq_zero {a : Box} (h : a.area = 0) :
    a.nonempty = false := by
  rcases Bool.eq_false_or_eq_true a.nonempty with hb | hb
  · exact absurd ((Box.nonempty_iff_area_pos a).1 hb) (by rw [h]; exact lt_irrefl 0)
  · exact hb

/-! ## C1: fetcher idempotence by file presence -/

/-- C1: for every destination path that already exists, the fetcher (both
`download_file` and the inline GHSL zip fetch) performs no network request
and leaves the file system unchanged; the download and write happen only
when the destination is absent. -/
theorem claim_C1 (net : String → NetAnswer) (disk : Disk)
    (unzip : Bytes → List (String × Bytes)) (url dest : String) (fs : FS) :
    ((fs dest).isSome = true → download_file net disk url dest fs = Except.ok ⟨fs, []⟩)
    ∧ ((fs ghsl_tif).isSome = true → fetch_ghsl net disk unzip fs = Except.ok ⟨fs, []⟩)
    ∧ (∀ r : HttpResponse, fs dest = none → net url = Except.ok r →
        disk dest r.content = WriteOutcome.ok →
        download_file net disk url dest fs
          = Except.ok ⟨fs.write dest r.content, [url]⟩) := by
  refine ⟨fun h => ?_, fun h => ?_, fun r hn hr hd => ?_⟩
  · simp [download_file, h]
  · simp [fetch_ghsl, h]
  · simp [download_file, writeFile, hn, hr, hd]

theorem claim_C1_witness :
    download_file netOk diskOk figshare_url mangrove_tif cachedFS
        = Except.ok ⟨cachedFS, []⟩
    ∧ fetch_ghsl netOk diskOk unzipNone cachedFS = Except.ok ⟨cachedFS, []⟩
    ∧ download_file netOk diskOk figshare_url mangrove_tif emptyFS
        = Except.ok ⟨emptyFS.write mangrove_tif [7], [figshare_url]⟩ :=
  ⟨(claim_C1 netOk diskOk unzipNone figshare_url mangrove_tif cachedFS).1 (by decide),
   (claim_C1 netOk diskOk unzipNone figshare_url mangrove_tif cachedFS).2.1 (by decide),
   (claim_C1 netOk diskOk unzipNone figshare_url mangrove_tif emptyFS).2.2
     ⟨200, [7]⟩ rfl rfl rfl⟩

/-! ## C3: error propagation in the fetcher -/

/-- C3 counterexample, refuting the claim at two concrete inputs.
First: a failed HTTP response (status 404) does NOT terminate the run —
`requests.get` raises no exception for an HTTP error status, so
`download_file` returns normally and writes the 404 error body to the
destination file.  Second: a disk error raised by `f.write` after a
successful `open(dest,'wb')` DOES leave a partially written destination
file behind — of the three-byte body only the first byte is on disk at
the abort. -/
theorem claim_C3_counterexample :
    (net404 figshare_url = Except.ok ⟨404, [110, 111]⟩
     ∧ download_file net404 diskOk figshare_url mangrove_tif emptyFS
         = Except.ok ⟨emptyFS.write mangrove_tif [110, 111], [figshare_url]⟩)
    ∧ (download_file netBody3 diskFull figshare_url mangrove_tif emptyFS
         = Except.error ("ENOSPC", emptyFS.write mangrove_tif [7])
       ∧ FS.write emptyFS mangrove_tif [7] mangrove_tif = some [7]
       ∧ [7] ≠ [7, 8, 9]) :=
  ⟨⟨rfl, rfl⟩, rfl, rfl, by decide⟩

/-- C3 as amended: every connection-level network error and every disk
error during fetching propagates unhandled and terminates the run, with
no retry.  A network error leaves the file system unchanged (the failure
precedes the `open`), and so does a disk error raised by `open` itself;
but a disk error raised during `f.write` leaves a truncated, partially
written destination file behind, and a failed HTTP response does not
raise at all — its body is written to the destination as if it were the
data (see the counterexample). -/
theorem claim_C3 (net : String → NetAnswer) (disk : Disk)
    (unzip : Bytes → List (String × Bytes)) (url dest : String) (fs : FS)
    (e : String) (r : HttpResponse) (n : ℕ) :
    (fs dest = none → net url = Except.error e →
        download_file net disk url dest fs = Except.error (e, fs))
    ∧ (fs dest = none → net url = Except.ok r →
        disk dest r.content = WriteOutcome.failOpen e →
        download_file net disk url dest fs = Except.error (e, fs))
    ∧ (fs dest = none → net url = Except.ok r →
        disk dest r.content = WriteOutcome.failWrite e n →
        download_file net disk url dest fs
          = Except.error (e, fs.write dest (r.content.take n)))
    ∧ (fs ghsl_tif = none → net ghsl_url = Except.error e →
        fetch_ghsl net disk unzip fs = Except.error (e, fs))
    ∧ (∀ es : String × FS, fs ghsl_tif = none → net ghsl_url = Except.ok r →
        extractAll disk (unzip r.content) fs = Except.error es →
        fetch_ghsl net disk unzip fs = Except.error es) := by
  refine ⟨fun hn hr => ?_, fun hn hr hd => ?_, fun hn hr hd => ?_,
          fun hn hr => ?_, fun es hn hr hx => ?_⟩
  · simp [download_file, hn, hr]
  · simp [download_file, writeFile, hn, hr, hd]
  · simp [download_file, writeFile, hn, hr, hd]
  · simp [fetch_ghsl, hn, hr]
  · simp [fetch_ghsl, hn, hr, hx]

theorem claim_C3_witness :
    download_file netDown diskOk figshare_url mangrove_tif emptyFS
        = Except.error ("ConnectionError", emptyFS)
    ∧ download_file netBody3 diskFull figshare_url mangrove_tif emptyFS
        = Except.error ("ENOSPC", emptyFS.write mangrove_tif ([7, 8, 9].take 1))
    ∧ fetch_ghsl netDown diskOk unzipNone emptyFS
        = Except.error ("ConnectionError", emptyFS) :=
  ⟨(claim_C3 netDown diskOk unzipNone figshare_url mangrove_tif emptyFS
      "ConnectionError" ⟨200, [7]⟩ 0).1 rfl rfl,
   (claim_C3 netBody3 diskFull unzipNone figshare_url mangrove_tif emptyFS
      "ENOSPC" ⟨200, [7, 8, 9]⟩ 1).2.2.1 rfl rfl rfl,
   (claim_C3 netDown diskOk unzipNone figshare_url mangrove_tif emptyFS
      "ConnectionError" ⟨200, [7]⟩ 0).2.2.2.1 rfl rfl⟩

/-! ## C5: the vectorization filter -/

/-- C5: `shapes_to_gdf` keeps exactly the polygons whose value is 1 and
whose construction succeeds, and a pair whose construction raises is
skipped without affecting the remaining output. -/
theorem claim_C5 (gen : List (RawShape × ℚ)) (crs : ℕ) :
    (shapes_to_gdf gen crs).geometry
      = gen.filterMap (fun sv => if sv.2 = 1 then sv.1.toOption else none)
    ∧ ∀ (e : String) (rest : List (RawShape × ℚ)),
        collectGeoms ((Except.error e, (1:ℚ)) :: rest) = collectGeoms rest := by
  constructor
  · show collectGeoms gen = _
    induction gen with
    | nil => rfl
    | cons sv rest ih =>
      obtain ⟨s, v⟩ := sv
      by_cases hv : v = 1
      · cases s with
        | ok g => simp [collectGeoms, hv, ih, Except.toOption]
        | error e => simp [collectGeoms, hv, ih, Except.toOption]
      · simp [collectGeoms, hv, ih]
  · intro e rest
    simp [collectGeoms]

/-! ## C10: the buffer step leaves the mangrove layer unchanged -/

/-- C10: running `mangrove_buffer = gdf_mangrove.copy()` and then the
in-place geometry assignment leaves the object bound to `gdf_mangrove`
untouched (geometries and CRS identical), because the mutation hits the
fresh copy, a distinct object. -/
theorem claim_C10 (s : BufferState) (h : s.gdf_mangrove ≠ s.nextId) :
    (bufferProgram s).gdf_mangrove = s.gdf_mangrove
    ∧ (bufferProgram s).heap s.gdf_mangrove = s.heap s.gdf_mangrove
    ∧ (bufferProgram s).mangrove_buffer ≠ s.gdf_mangrove
    ∧ (bufferProgram s).heap (bufferProgram s).mangrove_buffer
        = bufferLayer 0.05 (s.heap s.gdf_mangrove) := by
  refine ⟨rfl, ?_, ?_, ?_⟩
  · simp [bufferProgram, assignStep, copyStep, h]
  · simp [bufferProgram, assignStep, copyStep]
    exact fun hh => h hh.symm
  · simp [bufferProgram, assignStep, copyStep]

theorem claim_C10_witness :
    (bufferProgram bufferState0).gdf_mangrove = bufferState0.gdf_mangrove
    ∧ (bufferProgram bufferState0).heap bufferState0.gdf_mangrove
        = bufferState0.heap bufferState0.gdf_mangrove
    ∧ (bufferProgram bufferState0).mangrove_buffer ≠ bufferState0.gdf_mangrove
    ∧ (bufferProgram bufferState0).heap (bufferProgram bufferState0).mangrove_buffer
        = bufferLayer 0.05 (bufferState0.heap bufferState0.gdf_mangrove) :=
  claim_C10 bufferState0 (by decide)

/-! ## C2: algebra of the intersection overlay -/

theorem overlayInter_nil_of_disjoint (A B : List Box)
    (h : ∀ g ∈ A, ∀ k ∈ B, (g.inter k).area = 0) :
    overlayInter A B = [] := by
  induction A with
  | nil => rfl
  | cons g A ih =>
    have hrow : (B.filterMap fun k =>
        if (g.inter k).nonempty then some (g.inter k) else none) = [] := by
      rw [List.filterMap_eq_nil_iff]
      intro k hk
      rw [Box.nonempty_eq_false_of_area_eq_zero (h g (List.mem_cons_self g A) k hk)]
      simp
    have htail : overlayInter A B = [] :=
      ih fun x hx k hk => h x (List.mem_cons_of_mem g hx) k hk
    show (B.filterMap fun k =>
        if (g.inter k).nonempty then some (g.inter k) else none) ++ overlayInter A B = []
    rw [hrow, htail]
    rfl

theorem overlayInter_cons_right (A : List Box) (g : Box) (B : List Box)
    (h : ∀ x ∈ A, (x.inter g).area = 0) :
    overlayInter A (g :: B) = overlayInter A B := by
  induction A with
  | nil => rfl
  | cons x A ih =>
    have hx : (x.inter g).nonempty = false :=
      Box.nonempty_eq_false_of_area_eq_zero (h x (List.mem_cons_self x A))
    have hrow : ((g :: B).filterMap fun k =>
        if (x.inter k).nonempty then some (x.inter k) else none)
        = (B.filterMap fun k =>
        if (x.inter k).nonempty then some (x.inter k) else none) := by
      rw [List.filterMap_cons, hx]
      simp
    have htail := ih fun y hy => h y (List.mem_cons_of_mem x hy)
    show ((g :: B).filterMap fun k =>
        if (x.inter k).nonempty then some (x.inter k) else none) ++ overlayInter A (g :: B)
      = (B.filterMap fun k =>
        if (x.inter k).nonempty then some (x.inter k) else none) ++ overlayInter A B
    rw [hrow, htail]

theorem overlayInter_self (A : List Box)
    (hne : ∀ g ∈ A, g.nonempty = true)
    (hdis : A.Pairwise fun g k => (g.inter k).area = 0) :
    overlayInter A A = A := by
  induction A with
  | nil => rfl
  | cons g A ih =>
    rw [List.pairwise_cons] at hdis
    obtain ⟨hgA, hA⟩ := hdis
    have hg : g.nonempty = true := hne g (List.mem_cons_self g A)
    have hrow : ((g :: A).filterMap fun k =>
        if (g.inter k).nonempty then some (g.inter k) else none) = [g] := by
      rw [List.filterMap_cons, Box.inter_self, hg]
      have h0 : (A.filterMap fun k =>
          if (g.inter k).nonempty then some (g.inter k) else none) = [] :=
        List.filterMap_eq_nil_iff.2 fun k hk => by
          rw [Box.nonempty_eq_false_of_area_eq_zero (hgA k hk)]; simp
      simp [h0]
    have htail : overlayInter A (g :: A) = overlayInter A A :=
      overlayInter_cons_right A g A fun x hx => by
        rw [Box.inter_comm]; exact hgA x hx
    have hAA : overlayInter A A = A :=
      ih (fun x hx => hne x (List.mem_cons_of_mem g hx)) hA
    show ((g :: A).filterMap fun k =>
        if (g.inter k).nonempty then some (g.inter k) else none) ++ overlayInter A (g :: A)
      = g :: A
    rw [hrow, htail, hAA]
    rfl

/-- C2: the intersection overlay of two layers whose geometries are
pairwise disjoint (all pairwise intersection areas zero) is empty; and the
overlay of a layer with itself returns the layer, provided its geometries
are nonempty and mutually disjoint (the amendment the counterexample
forces: with mutually overlapping rows, the pairwise overlay duplicates
the shared parts). -/
theorem claim_C2 :
    (∀ a b : GeoDataFrame,
        (∀ g ∈ a.geometry, ∀ k ∈ b.geometry, (g.inter k).area = 0) →
        (overlay a b).geometry = [])
    ∧ (∀ a : GeoDataFrame,
        (∀ g ∈ a.geometry, g.nonempty = true) →
        (a.geometry.Pairwise fun g k => (g.inter k).area = 0) →
        overlay a a = a) := by
  constructor
  · intro a b h
    exact overlayInter_nil_of_disjoint a.geometry b.geometry h
  · intro a hne hdis
    cases a with
    | mk gs c =>
      show (⟨overlayInter gs gs, c⟩ : GeoDataFrame) = ⟨gs, c⟩
      rw [overlayInter_self gs hne hdis]

/-- C2 counterexample: a layer with two mutually overlapping geometries is
NOT returned unchanged by self-overlay — geopandas produces one row per
intersecting pair, so the shared region appears twice and the row count
grows from 2 to 4. -/
theorem claim_C2_counterexample :
    overlay overlappingLayer overlappingLayer ≠ overlappingLayer := by
  with_unfolding_all decide

theorem claim_C2_witness :
    (overlay ⟨[⟨0, 0, 1, 1⟩], 4326⟩ ⟨[⟨2, 2, 3, 3⟩], 4326⟩).geometry = []
    ∧ overlay ⟨[⟨0, 0, 1, 1⟩, ⟨2, 2, 3, 3⟩], 4326⟩ ⟨[⟨0, 0, 1, 1⟩, ⟨2, 2, 3, 3⟩], 4326⟩
        = ⟨[⟨0, 0, 1, 1⟩, ⟨2, 2, 3, 3⟩], 4326⟩ :=
  ⟨claim_C2.1 ⟨[⟨0, 0, 1, 1⟩], 4326⟩ ⟨[⟨2, 2, 3, 3⟩], 4326⟩ (by with_unfolding_all decide),
   claim_C2.2 ⟨[⟨0, 0, 1, 1⟩, ⟨2, 2, 3, 3⟩], 4326⟩ (by with_unfolding_all decide)
     (by with_unfolding_all decide)⟩

/-! ## C6: the clipper -/

theorem clipJ0_le_ncols (r : Raster) (minx : ℚ) : clipJ0 r minx ≤ r.ncols :=
  min_le_left _ _

theorem clipJ0_le_clipJ1 (r : Raster) (minx maxx : ℚ) :
    clipJ0 r minx ≤ clipJ1 r minx maxx :=
  le_min (clipJ0_le_ncols r minx) (le_max_left _ _)

theorem clipJ1_le_ncols (r : Raster) (minx maxx : ℚ) :
    clipJ1 r minx maxx ≤ r.ncols :=
  min_le_left _ _

theorem clipI0_le_nrows (r : Raster) (maxy : ℚ) : clipI0 r maxy ≤ r.nrows :=
  min_le_left _ _

theorem clipI0_le_clipI1 (r : Raster) (miny maxy : ℚ) :
    clipI0 r maxy ≤ clipI1 r miny maxy :=
  le_min (clipI0_le_nrows r maxy) (le_max_left _ _)

theorem clipI1_le_nrows (r : Raster) (miny maxy : ℚ) :
    clipI1 r miny maxy ≤ r.nrows :=
  min_le_left _ _

/-- C6 as amended: clipping crops to a window inside the input raster —
the output extent is a subset of the input extent — and performs no
reprojection (the CRS is unchanged).  The output extent is NOT always
inside the requested box, because the window is snapped outward to whole
cells (see the counterexample). -/
theorem claim_C6 (r : Raster) (minx miny maxx maxy : ℚ)
    (hpx : 0 < r.px) (hpy : 0 < r.py) :
    Box.sub (clip_box r minx miny maxx maxy).extent r.extent
    ∧ (clip_box r minx miny maxx maxy).crs = r.crs := by
  have hj01 := clipJ0_le_clipJ1 r minx maxx
  have hj1n := clipJ1_le_ncols r minx maxx
  have hi01 := clipI0_le_clipI1 r miny maxy
  have hi1n := clipI1_le_nrows r miny maxy
  have hcastj : ((clipJ1 r minx maxx - clipJ0 r minx : ℕ) : ℚ)
      = (clipJ1 r minx maxx : ℚ) - (clipJ0 r minx : ℚ) :=
    Nat.cast_sub hj01
  have hcasti : ((clipI1 r miny maxy - clipI0 r maxy : ℕ) : ℚ)
      = (clipI1 r miny maxy : ℚ) - (clipI0 r maxy : ℚ) :=
    Nat.cast_sub hi01
  have c1 : r.x0 ≤ r.x0 + (clipJ0 r minx : ℚ) * r.px :=
    le_add_of_nonneg_right (mul_nonneg (Nat.cast_nonneg _) hpx.le)
  have c3 : r.x0 + (clipJ0 r minx : ℚ) * r.px
      + ((clipJ1 r minx maxx - clipJ0 r minx : ℕ) : ℚ) * r.px
      ≤ r.x0 + (r.ncols : ℚ) * r.px := by
    rw [hcastj]
    have h := mul_le_mul_of_nonneg_right
      (show (clipJ1 r minx maxx : ℚ) ≤ (r.ncols : ℚ) from by exact_mod_cast hj1n) hpx.le
    linarith
  have c2 : r.y0 - (r.nrows : ℚ) * r.py
      ≤ r.y0 - (clipI0 r maxy : ℚ) * r.py
        - ((clipI1 r miny maxy - clipI0 r maxy : ℕ) : ℚ) * r.py := by
    rw [hcasti]
    have h := mul_le_mul_of_nonneg_right
      (show (clipI1 r miny maxy : ℚ) ≤ (r.nrows : ℚ) from by exact_mod_cast hi1n) hpy.le
    linarith
  have c4 : r.y0 - (clipI0 r maxy : ℚ) * r.py ≤ r.y0 := by
    have h : 0 ≤ (clipI0 r maxy : ℚ) * r.py := mul_nonneg (Nat.cast_nonneg _) hpy.le
    linarith
  exact ⟨⟨c1, c2, c3, c4⟩, rfl⟩

/-- C6 counterexample: with unit pixels and the half-aligned box
`(1/2, 1/2, 3/2, 3/2)`, the clip window snaps outward to whole cells and
the output extent `(0, 0, 2, 2)` is NOT a subset of the requested box. -/
theorem claim_C6_counterexample :
    ¬ Box.sub (clip_box rClipEx (1/2) (1/2) (3/2) (3/2)).extent ⟨1/2, 1/2, 3/2, 3/2⟩ := by
  with_unfolding_all decide

theorem claim_C6_witness :
    Box.sub (clip_box rClipEx (1/2) (1/2) (3/2) (3/2)).extent rClipEx.extent
    ∧ (clip_box rClipEx (1/2) (1/2) (3/2) (3/2)).crs = rClipEx.crs :=
  claim_C6 rClipEx (1/2) (1/2) (3/2) (3/2) (by with_unfolding_all decide)
    (by with_unfolding_all decide)

/-! ## C7, C8, C9: CRS invariant, buffer construction, statistics -/

/-- C7: every vector layer produced downstream of vectorization carries
the CRS of its source — `shapes_to_gdf` stamps the raster's CRS, buffering
and overlay preserve the CRS (overlay takes the first input's), and only
an explicit `to_crs` changes it; in the pipeline all four layers end up in
EPSG:4326 after the single explicit reprojection. -/
theorem claim_C7 (gen : List (RawShape × ℚ)) (r : Raster) (c : ℕ)
    (g a b : GeoDataFrame) (d : ℚ) (mR bR : Raster) :
    (shapes_to_gdf gen r.crs).crs = r.crs
    ∧ (to_crs c g).crs = c
    ∧ (bufferLayer d g).crs = g.crs
    ∧ (overlay a b).crs = a.crs
    ∧ (run_pipeline mR bR).gdf_mangrove.crs = 4326
    ∧ (run_pipeline mR bR).gdf_builtup.crs = 4326
    ∧ (run_pipeline mR bR).mangrove_buffer.crs = 4326
    ∧ (run_pipeline mR bR).overlap.crs = 4326 :=
  ⟨rfl, rfl, rfl, rfl, rfl, rfl, rfl, rfl⟩

/-- C8: the buffer layer is exactly the mangrove layer with every polygon
expanded outward by the planar distance 0.05 (= 1/20 degree units),
applied after the reprojection of the vectorized mangrove layer to
EPSG:4326. -/
theorem claim_C8 (mR bR : Raster) :
    (run_pipeline mR bR).mangrove_buffer
      = bufferLayer 0.05 (run_pipeline mR bR).gdf_mangrove
    ∧ (run_pipeline mR bR).mangrove_buffer.geometry
      = (run_pipeline mR bR).gdf_mangrove.geometry.map (Box.expand 0.05)
    ∧ (run_pipeline mR bR).gdf_mangrove
      = to_crs 4326 (shapes_to_gdf
          (features_shapes (clip_box mR 87.8 21.5 90.0 22.8)
            (maskEq1 (clip_box mR 87.8 21.5 90.0 22.8)))
          (clip_box mR 87.8 21.5 90.0 22.8).crs)
    ∧ (run_pipeline mR bR).gdf_mangrove.crs = 4326
    ∧ (0.05 : ℚ) = 1/20 :=
  ⟨rfl, rfl, rfl, rfl, by norm_num⟩

/-- C9: the statistics step reprojects the mangrove, built-up and overlap
layers to EPSG:6933, sums polygon areas per layer, divides by 1e6, and
prints exactly three labeled lines formatted with two decimal places. -/
theorem claim_C9 (mR bR : Raster) :
    statLines (run_pipeline mR bR).stats
      = ["  Mangrove area (km²): "
            ++ format2 (areaSum (to_crs 6933 (run_pipeline mR bR).gdf_mangrove).geometry
              / 1000000),
         "  Built-up area (km²): "
            ++ format2 (areaSum (to_crs 6933 (run_pipeline mR bR).gdf_builtup).geometry
              / 1000000),
         "  Built-up within 5 km (km²): "
            ++ format2 (areaSum (to_crs 6933 (run_pipeline mR bR).overlap).geometry
              / 1000000)]
    ∧ (statLines (run_pipeline mR bR).stats).length = 3 :=
  ⟨rfl, rfl⟩

/-! ## C4: positivity and bound of the built-up-within-buffer area -/

theorem Box.sub_refl (a : Box) : a.sub a :=
  ⟨le_refl _, le_refl _, le_refl _, le_refl _⟩

theorem Box.sub_trans {a b c : Box} (h1 : a.sub b) (h2 : b.sub c) : a.sub c :=
  ⟨le_trans h2.1 h1.1, le_trans h2.2.1 h1.2.1,
   le_trans h1.2.2.1 h2.2.2.1, le_trans h1.2.2.2 h2.2.2.2⟩

theorem Box.sub_join_left (a b : Box) : a.sub (a.join b) :=
  ⟨min_le_left _ _, min_le_left _ _, le_max_left _ _, le_max_left _ _⟩

theorem Box.sub_join_right (a b : Box) : b.sub (a.join b) :=
  ⟨min_le_right _ _, min_le_right _ _, le_max_right _ _, le_max_right _ _⟩

theorem Box.inter_sub_left (a k : Box) : (a.inter k).sub a :=
  ⟨le_max_left _ _, le_max_left _ _, min_le_left _ _, min_le_left _ _⟩

theorem Box.inter_sub_mono {a a2 : Box} (k : Box) (h : a.sub a2) :
    (a.inter k).sub (a2.inter k) :=
  ⟨max_le_max h.1 (le_refl _), max_le_max h.2.1 (le_refl _),
   min_le_min h.2.2.1 (le_refl _), min_le_min h.2.2.2 (le_refl _)⟩

theorem Box.area_le_of_sub {a b : Box} (h : a.sub b) : a.area ≤ b.area := by
  obtain ⟨h1, h2, h3, h4⟩ := h
  by_cases ha : a.x0 < a.x1 ∧ a.y0 < a.y1
  · have hb : b.x0 < b.x1 ∧ b.y0 < b.y1 :=
      ⟨lt_of_le_of_lt h1 (lt_of_lt_of_le ha.1 h3),
       lt_of_le_of_lt h2 (lt_of_lt_of_le ha.2 h4)⟩
    simp only [Box.area]
    rw [if_pos ha, if_pos hb]
    have hx : a.x1 - a.x0 ≤ b.x1 - b.x0 := by linarith
    have hy : a.y1 - a.y0 ≤ b.y1 - b.y0 := by linarith
    have hy0 : 0 ≤ a.y1 - a.y0 := by linarith [ha.2]
    have hx0 : 0 ≤ b.x1 - b.x0 := by linarith [hb.1]
    exact mul_le_mul hx hy hy0 hx0
  · simp only [Box.area]
    rw [if_neg ha]
    split
    · rename_i hb
      exact mul_nonneg (by linarith [hb.1]) (by linarith [hb.2])
    · exact le_refl 0

theorem areaSum_nonneg (l : List Box) : 0 ≤ areaSum l := by
  induction l with
  | nil => exact le_refl 0
  | cons g l ih =>
    show 0 ≤ g.area + areaSum l
    have := Box.area_nonneg g
    linarith

theorem areaSum_append (l1 l2 : List Box) :
    areaSum (l1 ++ l2) = areaSum l1 + areaSum l2 := by
  induction l1 with
  | nil =>
    show areaSum l2 = 0 + areaSum l2
    rw [zero_add]
  | cons g l ih =>
    show g.area + areaSum (l ++ l2) = g.area + areaSum l + areaSum l2
    rw [ih]
    ring

theorem areaSum_pos_of_mem {l : List Box} {g : Box} (h : g ∈ l) (hg : 0 < g.area) :
    0 < areaSum l := by
  induction l with
  | nil => exact absurd h (List.not_mem_nil _)
  | cons x l ih =>
    rcases List.mem_cons.1 h with h0 | h0
    · subst h0
      show 0 < g.area + areaSum l
      have := areaSum_nonneg l
      linarith
    · show 0 < x.area + areaSum l
      have h1 := ih h0
      have := Box.area_nonneg x
      linarith

theorem foldl_join_spec (r : Raster) (l : List Cell) (acc : Box) :
    Box.sub acc (l.foldl (fun b c2 => b.join (r.cellBox c2.1 c2.2)) acc)
    ∧ ∀ c ∈ l, Box.sub (r.cellBox c.1 c.2)
        (l.foldl (fun b c2 => b.join (r.cellBox c2.1 c2.2)) acc) := by
  induction l generalizing acc with
  | nil =>
    exact ⟨Box.sub_refl acc, by simp⟩
  | cons c l ih =>
    have ih2 := ih (acc.join (r.cellBox c.1 c.2))
    refine ⟨Box.sub_trans (Box.sub_join_left _ _) ih2.1, ?_⟩
    intro c2 hc2
    rcases List.mem_cons.1 hc2 with h | h
    · subst h
      exact Box.sub_trans (Box.sub_join_right _ _) ih2.1
    · exact ih2.2 c2 h

theorem mem_bboxOfCells (r : Raster) {l : List Cell} {c : Cell} (h : c ∈ l) :
    Box.sub (r.cellBox c.1 c.2) (bboxOfCells r l) := by
  cases l with
  | nil => exact absurd h (List.not_mem_nil c)
  | cons c0 rest =>
    simp only [bboxOfCells]
    rcases List.mem_cons.1 h with h0 | h0
    · subst h0
      exact (foldl_join_spec r rest _).1
    · exact (foldl_join_spec r rest _).2 c h0

theorem mem_collectGeoms_of_mem {gen : List (RawShape × ℚ)} {g : Box}
    (h : (Except.ok g, (1:ℚ)) ∈ gen) : g ∈ collectGeoms gen := by
  induction gen with
  | nil => exact absurd h (List.not_mem_nil _)
  | cons sv rest ih =>
    obtain ⟨s, v⟩ := sv
    rcases List.mem_cons.1 h with h0 | h0
    · cases h0
      simp [collectGeoms]
    · have hmem := ih h0
      by_cases hv : v = 1
      · subst hv
        cases s with
        | ok g2 => simpa [collectGeoms] using Or.inr hmem
        | error e => simpa [collectGeoms] using hmem
      · simpa [collectGeoms, hv] using hmem

theorem cell_covered (r : Raster) (mask : Cell → Bool) (c : Cell)
    (hc : c ∈ allCells r) (hm : mask c = true) :
    ∃ g ∈ collectGeoms (features_shapes r mask),
      Box.sub (r.cellBox c.1 c.2) g := by
  have hkmem : (labAt (finalLabels r mask) c, mask c)
      ∈ ((allCells r).map fun c2 => (labAt (finalLabels r mask) c2, mask c2)).dedup :=
    List.mem_dedup.2 (List.mem_map.2 ⟨c, hc, rfl⟩)
  have hpair : (Except.ok (bboxOfCells r ((allCells r).filter fun c2 =>
      decide (labAt (finalLabels r mask) c2 = labAt (finalLabels r mask) c)
        && (mask c2 == mask c))), (1:ℚ)) ∈ features_shapes r mask := by
    unfold features_shapes
    refine List.mem_map.2 ⟨(labAt (finalLabels r mask) c, mask c), hkmem, ?_⟩
    rw [hm]
    rfl
  refine ⟨_, mem_collectGeoms_of_mem hpair, ?_⟩
  apply mem_bboxOfCells
  refine List.mem_filter.2 ⟨hc, ?_⟩
  simp

theorem mem_overlayInter_single {l : List Box} {B g0 : Box} (hB : B ∈ l)
    (hne : (B.inter g0).nonempty = true) :
    B.inter g0 ∈ overlayInter l [g0] := by
  unfold overlayInter
  refine List.mem_flatMap.2 ⟨B, hB, ?_⟩
  simp [hne]

theorem areaSum_overlayInter_single (l : List Box) (g0 : Box) :
    areaSum (overlayInter l [g0]) ≤ areaSum l := by
  induction l with
  | nil => exact le_refl 0
  | cons b l ih =>
    show areaSum (([g0].filterMap fun k =>
        if (b.inter k).nonempty then some (b.inter k) else none)
        ++ overlayInter l [g0]) ≤ b.area + areaSum l
    rw [areaSum_append]
    have hrow : areaSum ([g0].filterMap fun k =>
        if (b.inter k).nonempty then some (b.inter k) else none) ≤ b.area := by
      rw [List.filterMap_cons]
      by_cases hbe : (b.inter g0).nonempty = true
      · rw [if_pos hbe]
        show (b.inter g0).area + 0 ≤ b.area
        have := Box.area_le_of_sub (Box.inter_sub_left b g0)
        linarith
      · rw [if_neg hbe]
        show areaSum [] ≤ b.area
        exact Box.area_nonneg b
    linarith

/-- C4 as amended: for rasters where the buffered mangrove layer consists
of a single polygon (as in the spec's single-cell scenario) and some
built-up cell with value `> 0` overlaps that buffer, the computed
built-up-within-buffer area is strictly positive and at most the total
built-up area.  (With two or more mutually overlapping buffer polygons the
pairwise overlay double-counts shared regions and the bound fails — see
the counterexample.) -/
theorem claim_C4 (mR bR : Raster)
    (hbuf : (run_pipeline mR bR).mangrove_buffer.geometry.length = 1)
    (hcell : ∃ c ∈ allCells (clip_box bR 87.8 21.5 90.0 22.8),
        maskGt0 (clip_box bR 87.8 21.5 90.0 22.8) c = true ∧
        ∃ g ∈ (run_pipeline mR bR).mangrove_buffer.geometry,
          0 < (((clip_box bR 87.8 21.5 90.0 22.8).cellBox c.1 c.2).inter g).area) :
    0 < areaSum (run_pipeline mR bR).overlap.geometry
    ∧ areaSum (run_pipeline mR bR).overlap.geometry
        ≤ areaSum (run_pipeline mR bR).gdf_builtup.geometry := by
  obtain ⟨g0, hg0⟩ := List.length_eq_one.1 hbuf
  obtain ⟨c, hc, hm, g, hgmem, hpos⟩ := hcell
  rw [hg0] at hgmem
  have hgg0 : g = g0 := List.mem_singleton.1 hgmem
  subst hgg0
  obtain ⟨B, hBmem, hBsub⟩ :=
    cell_covered (clip_box bR 87.8 21.5 90.0 22.8)
      (maskGt0 (clip_box bR 87.8 21.5 90.0 22.8)) c hc hm
  have hBbl : B ∈ (run_pipeline mR bR).gdf_builtup.geometry := hBmem
  have hposB : 0 < (B.inter g).area :=
    lt_of_lt_of_le hpos
      (Box.area_le_of_sub (Box.inter_sub_mono g hBsub))
  have hneB : (B.inter g).nonempty = true :=
    (Box.nonempty_iff_area_pos _).2 hposB
  have hov : (run_pipeline mR bR).overlap.geometry
      = overlayInter (run_pipeline mR bR).gdf_builtup.geometry
          (run_pipeline mR bR).mangrove_buffer.geometry := rfl
  constructor
  · rw [hov, hg0]
    exact areaSum_pos_of_mem (mem_overlayInter_single hBbl hneB) hposB
  · rw [hov, hg0]
    exact areaSum_overlayInter_single _ g

/-- C4 counterexample: `mangroveTwo` has two separate class-1 cells whose
0.05-degree buffers both cover the single positive built-up cell of
`builtupMid`; the overlay then contains that cell twice and the computed
built-up-within-buffer area strictly EXCEEDS the total built-up area,
refuting the claimed upper bound while all of the claim's hypotheses
hold. -/
theorem claim_C4_counterexample :
    (∃ c ∈ allCells (clip_box mangroveTwo 87.8 21.5 90.0 22.8),
        maskEq1 (clip_box mangroveTwo 87.8 21.5 90.0 22.8) c = true)
    ∧ (∃ c ∈ allCells (clip_box builtupMid 87.8 21.5 90.0 22.8),
        maskGt0 (clip_box builtupMid 87.8 21.5 90.0 22.8) c = true ∧
        ∃ g ∈ (run_pipeline mangroveTwo builtupMid).mangrove_buffer.geometry,
          0 < (((clip_box builtupMid 87.8 21.5 90.0 22.8).cellBox c.1 c.2).inter g).area)
    ∧ areaSum (run_pipeline mangroveTwo builtupMid).gdf_builtup.geometry
        < areaSum (run_pipeline mangroveTwo builtupMid).overlap.geometry := by
  with_unfolding_all decide

theorem claim_C4_witness :
    0 < areaSum (run_pipeline mangroveOne builtupOne).overlap.geometry
    ∧ areaSum (run_pipeline mangroveOne builtupOne).overlap.geometry
        ≤ areaSum (run_pipeline mangroveOne builtupOne).gdf_builtup.geometry :=
  claim_C4 mangroveOne builtupOne (by with_unfolding_all decide)
    (by with_unfolding_all decide)
